import Mathlib

/-!
Verification development for the omnia-timeseries python client.

The embedding models the two source files `src/omnia_timeseries/api.py` and
`src/omnia_timeseries/http_client.py`.  Python strings are carried as Lean
`String`s; the character-level scanning functions (substring search, the
regex `\bml\b`) operate on `String.data` (`List Char`).  Word characters for
the regex word boundary are modelled as ASCII alphanumerics or underscore,
which is faithful for the ASCII resource ids the library handles.

Stateful behaviour (credential construction, identity-backend token calls,
HTTP calls on the wire) is embedded by explicit state passing through a
`World` record; the external collaborators (identity backend, HTTP
transport, package metadata, host platform) are an `Env` of injected
functions, matching the spec's external-interface boundary.
-/

/-- Word character for the Python regex word boundary `\b` (ASCII model). -/
def isWordChar (c : Char) : Bool := c.isAlphanum || c = '_'

/-- Word boundary to the left of a match: start of string or a non-word char. -/
def prevBoundary : Option Char → Bool
  | none => true
  | some c => !isWordChar c

/-- Word boundary to the right of a match: end of string or a non-word char. -/
def nextBoundary : List Char → Bool
  | [] => true
  | c :: _ => !isWordChar c

/-- Does the list start with `ml` followed by a word boundary? -/
def mlHere : List Char → Bool
  | 'm' :: 'l' :: rest => nextBoundary rest
  | _ => false

/-- Scan for a whole-word occurrence of `ml` (the Python `re.search(r'\bml\b', s)`),
`prev` being the character just before the current position. -/
def hasWholeWordMl : Option Char → List Char → Bool
  | _, [] => false
  | prev, c :: rest => (prevBoundary prev && mlHere (c :: rest)) || hasWholeWordMl (some c) rest

/-- Does `hay` start with `needle`? -/
def startsList : List Char → List Char → Bool
  | [], _ => true
  | _ :: _, [] => false
  | a :: as, b :: bs => a = b && startsList as bs

/-- Substring test (the Python `needle in hay`). -/
def containsSub (needle : List Char) : List Char → Bool
  | [] => needle.isEmpty
  | c :: rest => startsList needle (c :: rest) || containsSub needle rest

/-- Number of (possibly overlapping) occurrences of `needle` in the list. -/
def countSub (needle : List Char) : List Char → Nat
  | [] => 0
  | c :: rest => (if startsList needle (c :: rest) then 1 else 0) + countSub needle rest

/-- The Python `str.lower()` (ASCII model). -/
def lowerStr (s : List Char) : List Char := s.map Char.toLower

/-- The alias condition of `TimeseriesEnvironment._sanitize_resource_id`
(api.py line 49): a case-insensitive whole-word `ml`, or the fragment
`ml.azure.com`, in the resource id. -/
def aliasPattern (resourceId : String) : Bool :=
  hasWholeWordMl none (lowerStr resourceId.data)
    || containsSub "ml.azure.com".data (lowerStr resourceId.data)

/-- Embedding of `TimeseriesEnvironment._sanitize_resource_id` (api.py
lines 48-53); `SanitizedApiClient._sanitize_resource_id` (lines 97-101) has
the identical body. -/
def sanitizeResourceId (resourceId : String) : String :=
  if aliasPattern resourceId then "https://management.azure.com" else resourceId

/-- Embedding of the scope selection in `HttpClient._get_access_token`
(http_client.py lines 69-73): the condition is a plain substring test
`"ml" in self._resource_id.lower()`. -/
def authEndpoint (resourceId : String) : String :=
  if containsSub "ml".data (lowerStr resourceId.data)
  then "https://management.azure.com/.default"
  else resourceId ++ "/.default"

/-- The composed scope resolution: `TimeseriesEnvironment` sanitizes the
resource id at construction (api.py line 45), `TimeseriesAPI.__init__`
passes `environment.resource_id` to `HttpClient` (api.py lines 112-114),
and `_get_access_token` derives the auth endpoint from it per call. -/
def resolveScope (resourceId : String) : String :=
  authEndpoint (sanitizeResourceId resourceId)

theorem startsList_length_le {n h : List Char} (hs : startsList n h = true) :
    n.length ≤ h.length := by
  induction n generalizing h with
  | nil => exact Nat.zero_le _
  | cons a as ih =>
    cases h with
    | nil => simp [startsList] at hs
    | cons b bs =>
      simp only [startsList, Bool.and_eq_true] at hs
      simpa using Nat.succ_le_succ (ih hs.2)

theorem containsSub_length_le {n h : List Char} (hc : containsSub n h = true) :
    n.length ≤ h.length := by
  induction h with
  | nil =>
    simp only [containsSub, List.isEmpty_iff] at hc
    simp [hc]
  | cons c rest ih =>
    simp only [containsSub, Bool.or_eq_true] at hc
    rcases hc with hc | hc
    · exact startsList_length_le hc
    · exact Nat.le_trans (ih hc) (by simp)

theorem containsSub_false_of_short {n h : List Char} (hl : h.length < n.length) :
    containsSub n h = false := by
  cases e : containsSub n h with
  | false => rfl
  | true => exact absurd (containsSub_length_le e) (by omega)

theorem startsList_append_left {a b h : List Char}
    (hs : startsList (a ++ b) h = true) : startsList a h = true := by
  induction a generalizing h with
  | nil => rfl
  | cons x xs ih =>
    cases h with
    | nil => simp [startsList] at hs
    | cons y ys =>
      simp only [List.cons_append, startsList, Bool.and_eq_true] at hs ⊢
      exact ⟨hs.1, ih hs.2⟩

theorem containsSub_append_left {a b h : List Char}
    (hc : containsSub (a ++ b) h = true) : containsSub a h = true := by
  induction h with
  | nil =>
    simp only [containsSub, List.isEmpty_iff, List.append_eq_nil] at hc
    simp [containsSub, hc.1]
  | cons c rest ih =>
    simp only [containsSub, Bool.or_eq_true] at hc ⊢
    rcases hc with hc | hc
    · exact Or.inl (startsList_append_left hc)
    · exact Or.inr (ih hc)

theorem mlHere_startsList {l : List Char} (hm : mlHere l = true) :
    startsList ['m', 'l'] l = true := by
  unfold mlHere at hm
  split at hm
  · rename_i rest
    simp [startsList]
  · exact absurd hm (by simp)

theorem wholeWordMl_containsSub {prev : Option Char} {l : List Char}
    (hw : hasWholeWordMl prev l = true) : containsSub ['m', 'l'] l = true := by
  induction l generalizing prev with
  | nil => simp [hasWholeWordMl] at hw
  | cons c rest ih =>
    simp only [hasWholeWordMl, Bool.or_eq_true, Bool.and_eq_true] at hw
    rcases hw with ⟨_, hm⟩ | hw
    · simp only [containsSub, Bool.or_eq_true]
      exact Or.inl (mlHere_startsList hm)
    · simp only [containsSub, Bool.or_eq_true]
      exact Or.inr (ih hw)

theorem aliasPattern_false_of_no_ml {r : String}
    (h : containsSub "ml".data (lowerStr r.data) = false) :
    aliasPattern r = false := by
  unfold aliasPattern
  have h1 : hasWholeWordMl none (lowerStr r.data) = false := by
    cases e : hasWholeWordMl none (lowerStr r.data) with
    | false => rfl
    | true =>
      have := wholeWordMl_containsSub e
      rw [show ("ml".data : List Char) = ['m', 'l'] from rfl] at h
      rw [this] at h
      cases h
  have h2 : containsSub "ml.azure.com".data (lowerStr r.data) = false := by
    cases e : containsSub "ml.azure.com".data (lowerStr r.data) with
    | false => rfl
    | true =>
      have := containsSub_append_left
        (a := "ml".data) (b := ".azure.com".data)
        (by rw [show ("ml".data ++ ".azure.com".data : List Char) = "ml.azure.com".data from rfl]; exact e)
      rw [this] at h
      cases h
  rw [h1, h2]
  rfl

/-- Claim C10: the alias sanitization is idempotent: sanitizing an already
sanitized resource id changes nothing.  The interesting case is the alias
branch, whose fixed result `https://management.azure.com` itself matches
neither the whole-word `ml` pattern nor the `ml.azure.com` fragment. -/
theorem sanitize_resource_id_idempotent (x : String) :
    sanitizeResourceId (sanitizeResourceId x) = sanitizeResourceId x := by
  by_cases h : aliasPattern x = true
  · have hx : sanitizeResourceId x = "https://management.azure.com" := by
      unfold sanitizeResourceId
      rw [h]
      rfl
    rw [hx]
    unfold sanitizeResourceId
    have : aliasPattern "https://management.azure.com" = false := by decide
    rw [this]
    rfl
  · have hx : sanitizeResourceId x = x := by
      unfold sanitizeResourceId
      rw [Bool.eq_false_iff.mpr h]
      rfl
    rw [hx, hx]

/-- Claim C3 counterexample: the resource id `html` does not match the alias
pattern the claim describes (no whole-word `ml`, no `ml.azure.com`
fragment), yet scope resolution does not return `html/.default`: the
substring check in `_get_access_token` fires on the `ml` inside `html`
and yields the management scope instead. -/
theorem resolve_nonalias_counterexample :
    aliasPattern "html" = false ∧
      resolveScope "html" ≠ "html" ++ "/.default" ∧
      resolveScope "html" = "https://management.azure.com/.default" := by
  refine ⟨by decide, ?_, by decide⟩
  decide

/-- Claim C3 (amended): for every resource id whose lowercase form does not even
contain `ml` as a substring, scope resolution returns the id suffixed with
`/.default`.  (The source's alias check in `_get_access_token` is a plain
substring test, not the whole-word pattern the claim states, so the
hypothesis must exclude all substring occurrences of `ml`.) -/
theorem resolve_nonalias_default_suffix (r : String)
    (h : containsSub "ml".data (lowerStr r.data) = false) :
    resolveScope r = r ++ "/.default" := by
  unfold resolveScope
  have hs : sanitizeResourceId r = r := by
    unfold sanitizeResourceId
    rw [aliasPattern_false_of_no_ml h]
    rfl
  rw [hs]
  unfold authEndpoint
  rw [h]
  rfl

/-- Witness for the amended C3 at the concrete resource id `abc`. -/
theorem resolve_nonalias_default_suffix_witness :
    resolveScope "abc" = "abc" ++ "/.default" :=
  resolve_nonalias_default_suffix "abc" (by decide)

/-- Claim C4: for every resource id matching the alias pattern (case-insensitive
whole-word `ml`, or the `ml.azure.com` fragment), the composed resolution
(environment-level sanitization followed by the per-call scope derivation)
returns the fixed management scope, with the `/.default` suffix occurring
exactly once — it is never appended twice. -/
theorem resolve_alias_management_scope (r : String)
    (h : aliasPattern r = true) :
    resolveScope r = "https://management.azure.com/.default" ∧
      countSub "/.default".data
        (resolveScope r).data = 1 := by
  have hs : resolveScope r = "https://management.azure.com/.default" := by
    unfold resolveScope sanitizeResourceId
    rw [h]
    rw [if_pos rfl]
    decide
  refine ⟨hs, ?_⟩
  rw [hs]
  decide

/-- Witness for C4 at the concrete resource id `my-ml-app`, which matches
the whole-word alias pattern. -/
theorem resolve_alias_management_scope_witness :
    resolveScope "my-ml-app" = "https://management.azure.com/.default" ∧
      countSub "/.default".data
        (resolveScope "my-ml-app").data = 1 :=
  resolve_alias_management_scope "my-ml-app" (by decide)

/-- An HTTP response as seen through the `requests` transport boundary:
status code, reason phrase and body text. -/
structure HttpResponse where
  statusCode : Nat
  reason : String
  bodyText : String
deriving DecidableEq

/-- The value `_request` returns on success (http_client.py lines 56-59):
either the JSON parse of the body (`response.json()`, performed by the
external `requests` library) or the raw body bytes unmodified
(`response.content`). -/
inductive Decoded where
  | json (body : String)
  | content (body : String)
deriving DecidableEq

/-- Modelled from the spec: the error payloads of
`src/omnia_timeseries/models.py`, which is absent from src.
`requestFailed` embeds `TimeseriesRequestFailedException`, raised by
`_request` on a non-ok response; per the spec it carries the response's
status, reason phrase and body.  `retryExhausted` and
`authenticationFailed` are the spec's `RetryExhaustedError` and
`AuthenticationError`; no code in src constructs them. -/
inductive ClientError where
  | requestFailed (statusCode : Nat) (reason : String) (body : String)
  | retryExhausted (statusCode : Nat) (reason : String) (body : String)
  | authenticationFailed (detail : String)
deriving DecidableEq

/-- One HTTP call as it leaves the client: method, url and the exact
header list handed to `requests.request`. -/
structure WireCall where
  method : String
  url : String
  headers : List (String × String)
deriving DecidableEq

/-- Observable state threaded through a dispatch:
`credsCreated` counts `ManagedIdentityCredential()` constructions,
`tokenCalls` records each identity-backend `get_token` call as
(credential instance id, scope), `wireCalls` records each HTTP call. -/
structure World where
  credsCreated : Nat
  tokenCalls : List (Nat × String)
  wireCalls : List WireCall
deriving DecidableEq

/-- External collaterals injected at the interface boundary: `mint n` is
the token the identity backend returns for the n-th `get_token` call,
`net n` the response the transport returns for the n-th HTTP call,
`pkgVersion` the installed package version (`metadata.version`),
`platSystem`/`platVersion` the host's `platform.system()` and
`platform.version()`. -/
structure Env where
  mint : Nat → String
  net : Nat → HttpResponse
  pkgVersion : String
  platSystem : String
  platVersion : String

/-- Embedding of `HttpClient.__init__` state (http_client.py lines 64-66):
the credential instance passed in (identified by a numeric instance id)
and the resource id. -/
structure HttpClient where
  azureCredential : Nat
  resourceId : String

/-- The identity backend's `credential.get_token(scope).token`: returns the
minted token and records which credential instance asked for which scope. -/
def credentialGetToken (env : Env) (credId : Nat) (scope : String)
    (w : World) : String × World :=
  (env.mint w.tokenCalls.length,
    ⟨w.credsCreated, w.tokenCalls ++ [(credId, scope)], w.wireCalls⟩)

/-- Embedding of `HttpClient._get_access_token` (http_client.py lines
68-84): derives the auth endpoint from the stored resource id, then —
per the source comment "FRESH CREDENTIAL PER CALL" (line 77) — constructs
a brand-new `ManagedIdentityCredential` (instance id `w.credsCreated`)
and acquires the token through it; the credential stored at construction
is not used. -/
def getAccessToken (env : Env) (client : HttpClient) (w : World) :
    String × World :=
  let endpoint := authEndpoint client.resourceId
  let freshId := w.credsCreated
  let w1 : World := ⟨w.credsCreated + 1, w.tokenCalls, w.wireCalls⟩
  credentialGetToken env freshId endpoint w1

/-- Embedding of `system_version_string` (http_client.py lines 38-39):
`(<system>; Python <version>)` when `platform.system()` is non-empty,
else `(Python <version>)`. -/
def systemVersionString (platSystem platVersion : String) : String :=
  if platSystem = "" then "(Python " ++ platVersion ++ ")"
  else "(" ++ platSystem ++ "; Python " ++ platVersion ++ ")"

/-- Embedding of the header dict built in `HttpClient.request`
(http_client.py lines 119-124). -/
def buildHeaders (token accept : String) (env : Env) :
    List (String × String) :=
  [("Authorization", "Bearer " ++ token),
   ("Content-Type", "application/json"),
   ("Accept", accept),
   ("User-Agent",
     "Omnia Timeseries SDK/" ++ env.pkgVersion ++ " "
       ++ systemVersionString env.platSystem env.platVersion)]

/-- Dictionary lookup in the header list (the Python `headers["Accept"]`
and `"Accept" in headers`). -/
def lookupHeader (name : String) : List (String × String) → Option String
  | [] => none
  | (k, v) :: rest => if k = name then some v else lookupHeader name rest

/-- Embedding of the decode step of `_request` (http_client.py lines
56-59): parse as JSON when the `Accept` header is absent or equals
`application/json`, otherwise return the raw bytes unmodified. -/
def decodeResponse (headers : List (String × String))
    (resp : HttpResponse) : Decoded :=
  match lookupHeader "Accept" headers with
  | none => Decoded.json resp.bodyText
  | some v =>
      if v = "application/json" then Decoded.json resp.bodyText
      else Decoded.content resp.bodyText

/-- One attempt of `_request` (http_client.py lines 52-59): issue the HTTP
call; if `response.ok` is false (i.e. status >= 400 in `requests`), raise
`TimeseriesRequestFailedException`; otherwise decode per the Accept
header. -/
def singleAttempt (net : Nat → HttpResponse) (call : WireCall)
    (w : World) : Except ClientError Decoded × World :=
  let resp := net w.wireCalls.length
  let w1 : World := ⟨w.credsCreated, w.tokenCalls, w.wireCalls ++ [call]⟩
  if resp.statusCode < 400 then
    (Except.ok (decodeResponse call.headers resp), w1)
  else
    (Except.error
      (ClientError.requestFailed resp.statusCode resp.reason resp.bodyText),
      w1)

/-- Modelled from the spec: the generically retryable status set of
RetryingTransport (spec section 4.4) — 429 and the 5xx server errors. -/
def isRetryableStatus (statusCode : Nat) : Bool :=
  statusCode = 429 || (500 ≤ statusCode && statusCode < 600)

/-- Is a raised error generically retryable?  Only a
`TimeseriesRequestFailedException` with a retryable status is. -/
def isRetryableErr : ClientError → Bool
  | ClientError.requestFailed statusCode _ _ => isRetryableStatus statusCode
  | _ => false

/-- Modelled from the spec: `RetryExhaustedError` carrying the last
observed failure (spec section 4.4 step 3). -/
def exhaustOf : ClientError → ClientError
  | ClientError.requestFailed statusCode reason body =>
      ClientError.retryExhausted statusCode reason body
  | e => e

/-- Modelled from the spec: the `helpers.retry` decorator wrapping
`_request` (src/omnia_timeseries/helpers.py is absent from src).  Spec
section 4.4: statuses 429/5xx are retried up to the attempt budget, then
fail with the exhaustion error; any other failure is terminal on the spot.
The spec's 401/403 auth-retry path (invalidate the token cache, re-acquire,
rebuild the Authorization header) needs a token cache and credential access
that the wrapped `_request` interface (fixed headers, no credential) does
not provide and that src's `HttpClient` does not contain, so 401/403 fall
through to the terminal branch.  The fuel argument is the remaining
attempt budget. -/
def retryLoop (net : Nat → HttpResponse) (call : WireCall) :
    Nat → World → Except ClientError Decoded × World
  | 0, w => (Except.error (ClientError.retryExhausted 0 "" ""), w)
  | n + 1, w =>
    match singleAttempt net call w with
    | (Except.ok d, w1) => (Except.ok d, w1)
    | (Except.error e, w1) =>
      if isRetryableErr e then
        if n = 0 then (Except.error (exhaustOf e), w1)
        else retryLoop net call n w1
      else (Except.error e, w1)

/-- Modelled from the spec: the retry policy's maximum attempt count
(spec section 4.4 gives the policy constant as 3-5). -/
def retryMaxAttempts : Nat := 3

/-- Embedding of `HttpClient.request` (http_client.py lines 109-131):
acquire a token via `_get_access_token`, build the four headers, and hand
the call to the retry-wrapped `_request`. -/
def request (env : Env) (client : HttpClient)
    (method url accept : String) (w : World) :
    Except ClientError Decoded × World :=
  let (token, w1) := getAccessToken env client w
  let headers := buildHeaders token accept env
  retryLoop env.net ⟨method, url, headers⟩ retryMaxAttempts w1

theorem retryLoop_world (net : Nat → HttpResponse) (call : WireCall)
    (fuel : Nat) : ∀ w : World, ∃ k : Nat, (1 ≤ fuel → 1 ≤ k) ∧
      (retryLoop net call fuel w).2 =
        ⟨w.credsCreated, w.tokenCalls,
          w.wireCalls ++ List.replicate k call⟩ := by
  induction fuel with
  | zero =>
    intro w
    exact ⟨0, fun hf => absurd hf (by omega), by simp [retryLoop]⟩
  | succ n ih =>
    intro w
    simp only [retryLoop]
    by_cases hc : (net w.wireCalls.length).statusCode < 400
    · simp only [singleAttempt, if_pos hc]
      exact ⟨1, fun _ => le_refl 1, rfl⟩
    · simp only [singleAttempt, if_neg hc]
      by_cases hr : isRetryableErr
          (ClientError.requestFailed (net w.wireCalls.length).statusCode
            (net w.wireCalls.length).reason
            (net w.wireCalls.length).bodyText) = true
      · simp only [if_pos hr]
        by_cases hn : n = 0
        · simp only [if_pos hn]
          exact ⟨1, fun _ => le_refl 1, rfl⟩
        · simp only [if_neg hn]
          obtain ⟨k, -, hk⟩ :=
            ih ⟨w.credsCreated, w.tokenCalls, w.wireCalls ++ [call]⟩
          refine ⟨k + 1, fun _ => by omega, ?_⟩
          rw [hk]
          simp [List.replicate_succ, List.append_assoc]
      · simp only [if_neg hr]
        exact ⟨1, fun _ => le_refl 1, rfl⟩

theorem request_world (env : Env) (client : HttpClient)
    (method url accept : String) (w : World) :
    ∃ k : Nat, 1 ≤ k ∧
      (request env client method url accept w).2 =
        ⟨w.credsCreated + 1,
          w.tokenCalls ++ [(w.credsCreated, authEndpoint client.resourceId)],
          w.wireCalls ++ List.replicate k
            (⟨method, url,
              buildHeaders (env.mint w.tokenCalls.length) accept env⟩ :
              WireCall)⟩ := by
  obtain ⟨k, hk1, hk⟩ := retryLoop_world env.net
    ⟨method, url, buildHeaders (env.mint w.tokenCalls.length) accept env⟩
    retryMaxAttempts
    ⟨w.credsCreated + 1,
      w.tokenCalls ++ [(w.credsCreated, authEndpoint client.resourceId)],
      w.wireCalls⟩
  exact ⟨k, hk1 (by decide), hk⟩

theorem request_tokenCalls (env : Env) (client : HttpClient)
    (method url accept : String) (w : World) :
    (request env client method url accept w).2.tokenCalls =
      w.tokenCalls ++ [(w.credsCreated, authEndpoint client.resourceId)] := by
  obtain ⟨k, -, hk⟩ := request_world env client method url accept w
  rw [hk]

theorem request_credsCreated (env : Env) (client : HttpClient)
    (method url accept : String) (w : World) :
    (request env client method url accept w).2.credsCreated =
      w.credsCreated + 1 := by
  obtain ⟨k, -, hk⟩ := request_world env client method url accept w
  rw [hk]

/-- The empty starting state: no credentials constructed, no backend
token calls, nothing on the wire. -/
def w0 : World := ⟨0, [], []⟩

/-- A concrete environment whose transport always answers 200. -/
def env200 : Env :=
  ⟨fun _ => "tok-secret", fun _ => ⟨200, "OK", "[]"⟩, "1.3.10", "Linux", "5.15"⟩

/-- A concrete environment whose transport always answers 401. -/
def env401 : Env :=
  ⟨fun _ => "tok-secret", fun _ => ⟨401, "Unauthorized", ""⟩,
    "1.3.10", "Linux", "5.15"⟩

/-- A concrete environment whose transport always answers 304. -/
def env304 : Env :=
  ⟨fun _ => "tok-secret", fun _ => ⟨304, "Not Modified", ""⟩,
    "1.3.10", "Linux", "5.15"⟩

/-- A concrete client: the injected credential instance has id 7, the
resource id is `res` (no alias marker). -/
def client7 : HttpClient := ⟨7, "res"⟩

/-- Claim C1 counterexample: two consecutive `request` calls from a fresh state
perform two backend token acquisitions, not one — there is no token cache;
`_get_access_token` acquires anew (through a freshly constructed
credential) on every call. -/
theorem request_no_token_reuse_counterexample :
    ((request env200 client7 "get" "https://u" "application/json"
        (request env200 client7 "get" "https://u" "application/json"
          w0).2).2).tokenCalls.length = 2 ∧
      ¬ ((request env200 client7 "get" "https://u" "application/json"
        (request env200 client7 "get" "https://u" "application/json"
          w0).2).2).tokenCalls.length = 1 := by
  constructor
  · decide
  · decide

/-- Claim C1 (amended): every `request` call performs exactly one backend token
acquisition and constructs one fresh credential, so two consecutive calls
perform exactly two acquisitions — no token is cached or reused. -/
theorem request_two_calls_two_acquisitions (env : Env) (client : HttpClient)
    (method url accept : String) (w : World) :
    ((request env client method url accept
        (request env client method url accept w).2).2).tokenCalls.length =
        w.tokenCalls.length + 2 ∧
      ((request env client method url accept
        (request env client method url accept w).2).2).credsCreated =
        w.credsCreated + 2 := by
  constructor
  · rw [request_tokenCalls, request_tokenCalls]
    simp
  · rw [request_credsCreated, request_credsCreated]

/-- Claim C6 counterexample: with the credential instance 7 injected at
construction, the single backend `get_token` call of a `request` is issued
by the freshly constructed credential instance 0, not by the injected
instance. -/
theorem request_injected_credential_counterexample :
    (request env200 client7 "get" "https://u" "application/json"
        w0).2.tokenCalls = [(0, "res/.default")] ∧
      ¬ (request env200 client7 "get" "https://u" "application/json"
        w0).2.tokenCalls =
          [(client7.azureCredential, "res/.default")] := by
  constructor
  · decide
  · decide

/-- Claim C6 (amended): the access token for a `request` is acquired through a
`ManagedIdentityCredential` freshly constructed inside
`_get_access_token` (the instance whose id is the number of credentials
created so far), for the scope derived from the stored resource id; the
credential instance passed at construction is stored but not used for the
acquisition, whatever its identity. -/
theorem request_uses_fresh_credential (env : Env) (client : HttpClient)
    (method url accept : String) (w : World) :
    (request env client method url accept w).2.tokenCalls =
        w.tokenCalls ++ [(w.credsCreated, authEndpoint client.resourceId)] ∧
      (request env client method url accept w).2.credsCreated =
        w.credsCreated + 1 :=
  ⟨request_tokenCalls env client method url accept w,
    request_credsCreated env client method url accept w⟩

/-- Claim C2 counterexample: against a transport that always answers 401, a
dispatch fails on the very first attempt with
`TimeseriesRequestFailedException` carrying status 401 — not with an
`AuthenticationError` — after exactly one wire call and with no token
cache in existence to invalidate. -/
theorem request_401_counterexample :
    (request env401 client7 "get" "https://u" "application/json" w0).1 =
        Except.error (ClientError.requestFailed 401 "Unauthorized" "") ∧
      (request env401 client7 "get" "https://u" "application/json"
          w0).2.wireCalls.length = 1 := by
  constructor
  · rfl
  · decide

/-- Claim C2 (amended): when the transport always returns status 401, `request`
fails with `TimeseriesRequestFailedException` carrying status 401 after
exactly one attempt: 401 is not in the generic retryable set, the client
holds no token cache to invalidate, and `AuthenticationError` is never
raised. -/
theorem request_always_401_terminal (env : Env) (client : HttpClient)
    (method url accept : String) (w : World) (reason body : String)
    (h : ∀ n, env.net n = ⟨401, reason, body⟩) :
    (request env client method url accept w).1 =
        Except.error (ClientError.requestFailed 401 reason body) ∧
      (request env client method url accept w).2.wireCalls.length =
        w.wireCalls.length + 1 := by
  simp only [request, getAccessToken, credentialGetToken, retryMaxAttempts]
  rw [show (3 : Nat) = 2 + 1 from rfl]
  simp [retryLoop, singleAttempt, h, isRetryableErr, isRetryableStatus]

/-- Witness for the amended C2: the concrete always-401 environment. -/
theorem request_always_401_terminal_witness :
    (request env401 client7 "get" "https://u" "application/json" w0).1 =
        Except.error
          (ClientError.requestFailed 401 "Unauthorized" "") ∧
      (request env401 client7 "get" "https://u" "application/json"
          w0).2.wireCalls.length = w0.wireCalls.length + 1 :=
  request_always_401_terminal env401 client7 "get" "https://u"
    "application/json" w0 "Unauthorized" "" (fun _ => rfl)

/-- Is a dispatch result a success (no exception raised)? -/
def isOkResult : Except ClientError Decoded → Bool
  | Except.ok _ => true
  | Except.error _ => false

/-- A concrete environment whose transport always answers 404. -/
def env404 : Env :=
  ⟨fun _ => "tok-secret", fun _ => ⟨404, "Not Found", "missing"⟩,
    "1.3.10", "Linux", "5.15"⟩

/-- Claim C5 counterexample: a 304 response is not a 2xx success and is in
neither the retryable nor the auth-retryable set, yet the dispatch does
not fail: `_request` tests `response.ok` (status < 400 in `requests`), so
the 304 body is decoded and returned. -/
theorem request_304_counterexample :
    ((304 < 200 ∨ 300 ≤ 304) ∧ isRetryableStatus 304 = false ∧
        304 ≠ 401 ∧ 304 ≠ 403) ∧
      (request env304 client7 "get" "https://u" "application/json" w0).1 =
        Except.ok (Decoded.json "") :=
  ⟨by decide, rfl⟩

/-- Claim C5 (amended): a response with status >= 400 outside the retryable and
auth-retryable sets makes the dispatch fail immediately — one single wire
call — with `TimeseriesRequestFailedException` carrying the response's
status, reason phrase and body; and a response with status < 400 (2xx and
3xx alike) never raises it. -/
theorem request_terminal_failure (env : Env) (client : HttpClient)
    (method url accept : String) (w : World) (resp : HttpResponse)
    (h : ∀ n, env.net n = resp) :
    (400 ≤ resp.statusCode → isRetryableStatus resp.statusCode = false →
      resp.statusCode ≠ 401 → resp.statusCode ≠ 403 →
      (request env client method url accept w).1 =
          Except.error (ClientError.requestFailed resp.statusCode
            resp.reason resp.bodyText) ∧
        (request env client method url accept w).2.wireCalls.length =
          w.wireCalls.length + 1) ∧
    (resp.statusCode < 400 →
      isOkResult (request env client method url accept w).1 = true) := by
  constructor
  · intro h400 hrs h401 h403
    have hlt : ¬ resp.statusCode < 400 := by omega
    simp only [request, getAccessToken, credentialGetToken, retryMaxAttempts]
    rw [show (3 : Nat) = 2 + 1 from rfl]
    simp [retryLoop, singleAttempt, h, hlt, isRetryableErr, hrs]
  · intro hlt
    simp only [request, getAccessToken, credentialGetToken, retryMaxAttempts]
    rw [show (3 : Nat) = 2 + 1 from rfl]
    simp [retryLoop, singleAttempt, h, hlt, isOkResult]

/-- Witness for the amended C5: a concrete always-404 environment fails
with the typed error after one wire call; a concrete always-200
environment raises nothing. -/
theorem request_terminal_failure_witness :
    ((request env404 client7 "get" "https://u" "application/json" w0).1 =
        Except.error
          (ClientError.requestFailed 404 "Not Found" "missing") ∧
      (request env404 client7 "get" "https://u" "application/json"
          w0).2.wireCalls.length = w0.wireCalls.length + 1) ∧
    isOkResult
      (request env200 client7 "get" "https://u" "application/json" w0).1 =
        true :=
  ⟨(request_terminal_failure env404 client7 "get" "https://u"
      "application/json" w0 ⟨404, "Not Found", "missing"⟩
      (fun _ => rfl)).1 (by decide) (by decide) (by decide) (by decide),
   (request_terminal_failure env200 client7 "get" "https://u"
      "application/json" w0 ⟨200, "OK", "[]"⟩
      (fun _ => rfl)).2 (by decide)⟩

/-- Claim C7: for a successful response, `request` returns the JSON parse of the
body when the caller's accept value is `application/json` (the default),
and for every other accept value the raw response bytes are returned
unmodified. -/
theorem request_decode (env : Env) (client : HttpClient)
    (method url accept : String) (w : World) (reason body : String)
    (h : ∀ n, env.net n = ⟨200, reason, body⟩) :
    (request env client method url "application/json" w).1 =
        Except.ok (Decoded.json body) ∧
      (accept ≠ "application/json" →
        (request env client method url accept w).1 =
          Except.ok (Decoded.content body)) := by
  constructor
  · simp only [request, getAccessToken, credentialGetToken, retryMaxAttempts]
    rw [show (3 : Nat) = 2 + 1 from rfl]
    simp [retryLoop, singleAttempt, h, decodeResponse, buildHeaders,
      lookupHeader]
  · intro ha
    simp only [request, getAccessToken, credentialGetToken, retryMaxAttempts]
    rw [show (3 : Nat) = 2 + 1 from rfl]
    simp [retryLoop, singleAttempt, h, decodeResponse, buildHeaders,
      lookupHeader, ha]

/-- The response body of the spec's decoding example. -/
def cexBody : String := "\x7b\"id\":\"abc\"\x7d"

/-- A concrete environment whose transport always answers 200 with the
JSON object body of the spec's example. -/
def envJson : Env :=
  ⟨fun _ => "tok-secret", fun _ => ⟨200, "OK", cexBody⟩,
    "1.3.10", "Linux", "5.15"⟩

/-- Witness for C7 at the spec's example body, exercising the non-JSON
branch at both of the source's other `ContentType` literals. -/
theorem request_decode_witness :
    (request envJson client7 "get" "https://u" "application/json" w0).1 =
        Except.ok (Decoded.json cexBody) ∧
      (request envJson client7 "get" "https://u" "application/protobuf"
          w0).1 = Except.ok (Decoded.content cexBody) ∧
      (request envJson client7 "get" "https://u"
          "application/x-google-protobuf" w0).1 =
        Except.ok (Decoded.content cexBody) :=
  ⟨(request_decode envJson client7 "get" "https://u" "application/protobuf"
      w0 "OK" cexBody (fun _ => rfl)).1,
   (request_decode envJson client7 "get" "https://u" "application/protobuf"
      w0 "OK" cexBody (fun _ => rfl)).2 (by decide),
   (request_decode envJson client7 "get" "https://u"
      "application/x-google-protobuf" w0 "OK" cexBody
      (fun _ => rfl)).2 (by decide)⟩

/-- Claim C8: every HTTP call a `request` puts on the wire carries exactly the
four headers of http_client.py lines 119-124: `Authorization` is `Bearer `
followed by the acquired token, `Content-Type` is `application/json`,
`Accept` is the caller-chosen content type, and `User-Agent` is
`Omnia Timeseries SDK/<version> (<platform>; Python <platform-version>)`
(when the platform name is non-empty). -/
theorem request_wire_headers (env : Env) (client : HttpClient)
    (method url accept : String) (w : World)
    (h : env.platSystem ≠ "") :
    w.wireCalls.length <
        (request env client method url accept w).2.wireCalls.length ∧
      (((request env client method url accept w).2.wireCalls.drop
          w.wireCalls.length).all
        (fun c => c.headers ==
          [("Authorization",
              "Bearer " ++ env.mint w.tokenCalls.length),
            ("Content-Type", "application/json"),
            ("Accept", accept),
            ("User-Agent",
              "Omnia Timeseries SDK/" ++ env.pkgVersion ++ " " ++
                ("(" ++ env.platSystem ++ "; Python "
                  ++ env.platVersion ++ ")"))])) = true := by
  obtain ⟨k, hk1, hk⟩ := request_world env client method url accept w
  rw [hk]
  constructor
  · simp only [List.length_append, List.length_replicate]
    omega
  · simp only [List.drop_left]
    rw [List.all_eq_true]
    intro c hc
    rw [List.eq_of_mem_replicate hc]
    rw [beq_iff_eq]
    unfold buildHeaders systemVersionString
    rw [if_neg h]

/-- Witness for C8 at a concrete environment with platform name `Linux`. -/
theorem request_wire_headers_witness :
    w0.wireCalls.length <
        (request env200 client7 "get" "https://u" "application/json"
          w0).2.wireCalls.length ∧
      (((request env200 client7 "get" "https://u" "application/json"
            w0).2.wireCalls.drop w0.wireCalls.length).all
        (fun c => c.headers ==
          [("Authorization",
              "Bearer " ++ env200.mint w0.tokenCalls.length),
            ("Content-Type", "application/json"),
            ("Accept", "application/json"),
            ("User-Agent",
              "Omnia Timeseries SDK/" ++ env200.pkgVersion ++ " " ++
                ("(" ++ env200.platSystem ++ "; Python "
                  ++ env200.platVersion ++ ")"))])) = true :=
  request_wire_headers env200 client7 "get" "https://u" "application/json"
    w0 (by decide)

/-- The token-mentioning diagnostic lines the client can print, as
functions of the token value: the module-level token test
(http_client.py line 24, `token[:20]`), `_get_access_token`
(line 79, `token[:10]`) and `test_token_retrieval` (line 93,
`token[:20]`).  Every other print in the source interpolates no token
data.  Python slicing `token[:k]` is `List.take k`. -/
def tokenDiagnostics (token : List Char) : List (List Char) :=
  ["Token: ".data ++ token.take 20 ++ " ...".data,
   "Successfully retrieved token: ".data ++ token.take 10 ++ "...".data,
   "✅ Token successfully retrieved: ".data ++ token.take 20 ++ " ...".data]

/-- Claim C9: no diagnostic line ever contains the full access-token value:
each interpolates at most the first 20 characters of the token, so for
every token longer than any diagnostic frame (64 characters; real bearer
tokens are far longer) the token does not occur as a substring of any
printed line. -/
theorem token_diagnostics_never_full_token (t : List Char)
    (ht : 64 < t.length) :
    ((tokenDiagnostics t).all fun d => !(containsSub t d)) = true := by
  rw [List.all_eq_true]
  intro d hd
  have h20 : (t.take 20).length ≤ 20 := by
    rw [List.length_take]
    exact Nat.min_le_left _ _
  have h10 : (t.take 10).length ≤ 10 := by
    rw [List.length_take]
    exact Nat.min_le_left _ _
  have hshort : d.length < t.length := by
    simp only [tokenDiagnostics, List.mem_cons, List.not_mem_nil,
      or_false] at hd
    rcases hd with rfl | rfl | rfl <;>
      simp only [List.length_append, List.length_cons, List.length_nil] <;>
      omega
  have hc := @containsSub_false_of_short t d hshort
  simp [hc]

/-- A concrete 65-character token for the C9 witness. -/
def tok65 : List Char := List.replicate 65 'x'

/-- Witness for C9 at the concrete 65-character token. -/
theorem token_diagnostics_never_full_token_witness :
    ((tokenDiagnostics tok65).all fun d => !(containsSub tok65 d)) = true :=
  token_diagnostics_never_full_token tok65 (by decide)
